import Mathlib

/-!
Shallow embedding of the tmuxui hierarchical selection / synchronization
engine (src/app.rs, src/tmux.rs, src/models.rs and the dispatcher parts of
src/main.rs).

The external process gateway is modelled by an environment
`Env : List String → Option String` mapping an argument vector to the raw
stdout of the invoked binary (`none` = the binary could not be launched or
exited non-zero).  Every operation that invokes the gateway additionally
returns the list of argument vectors it issued, in order, so that claims
about which fetches and writes happen can be stated.
-/

namespace Tmuxui

/-- Model of the ratatui list state: only the selected index is relevant. -/
structure ListState where
  selected : Option Nat
deriving DecidableEq, Repr

/-- models.rs: Session record. -/
structure Session where
  id : String
  name : String
  count : String
  created : String
deriving DecidableEq, Repr

/-- models.rs: Window record. -/
structure Window where
  id : String
  name : String
  active : Bool
  layout : String
deriving DecidableEq, Repr

/-- models.rs: Pane record. -/
structure Pane where
  id : String
  width : String
  height : String
  current_path : String
  current_command : String
  active : Bool
deriving DecidableEq, Repr

/-- app.rs: AppState enum. -/
inductive AppState where
  | Normal
  | InputNewSession
  | InputRenameSession
  | ConfirmDeleteSession
  | InputNewWindow
  | InputRenameWindow
  | ConfirmDeleteWindow
  | ConfirmDeletePane
deriving DecidableEq, Repr

/-- app.rs: FocusArea enum. -/
inductive FocusArea where
  | Sessions
  | Windows
  | Panes
deriving DecidableEq, Repr

/-- app.rs: the App struct (data lists, list states, focus, mode, input). -/
structure App where
  sessions : List Session
  windows : List Window
  panes : List Pane
  session_list_state : ListState
  window_list_state : ListState
  pane_list_state : ListState
  focus : FocusArea
  state : AppState
  input_buffer : String
  should_quit : Bool
  target_attach : Option String
deriving DecidableEq, Repr

/-- The external-process environment: argument vector ↦ raw stdout
(`none` when the binary cannot be launched or exits non-zero). -/
abbrev Env := List String → Option String

/-- Rust `str::split(sep)` for a single-character separator, on the
character list: splitting never yields the empty list, the separator is
dropped, and adjacent separators yield empty pieces. -/
def split_char (sep : Char) : List Char → List (List Char)
  | [] => [[]]
  | c :: cs =>
    if c = sep then [] :: split_char sep cs
    else
      match split_char sep cs with
      | [] => [[c]]
      | g :: gs => (c :: g) :: gs

/-- Rust `str::split(sep)` for a single-character separator. -/
def rust_split (s : String) (sep : Char) : List String :=
  (split_char sep s.toList).map String.mk

/-- Rust `str::trim`: drop whitespace from both ends. -/
def rust_trim (s : String) : String :=
  String.mk (((s.toList.dropWhile Char.isWhitespace).reverse.dropWhile Char.isWhitespace).reverse)

/-- Rust `str::lines`: split on newline, drop an optional final empty
piece (a trailing newline produces no extra line), and strip a trailing
carriage return from each line. -/
def rust_lines (s : String) : List String :=
  let pieces := split_char '\n' s.toList
  let pieces :=
    match pieces.getLast? with
    | some [] => pieces.dropLast
    | _ => pieces
  pieces.map (fun l => String.mk (if l.getLast? = some '\r' then l.dropLast else l))

/-- tmux.rs `run_tmux`: returns the trimmed stdout on success, `none` on
failure. -/
def run_tmux (env : Env) (args : List String) : Option String :=
  match env args with
  | none => none
  | some out => some (rust_trim out)

def session_list_args : List String :=
  ["list-sessions", "-F", "#{session_id}|#{session_name}|#{session_windows}|#{session_created_string}"]

def window_list_args (session_id : String) : List String :=
  ["list-windows", "-t", session_id, "-F", "#{window_id}|#{window_name}|#{window_active}|#{window_layout}"]

def pane_list_args (window_id : String) : List String :=
  ["list-panes", "-t", window_id, "-F", "#{pane_id}|#{pane_width}|#{pane_height}|#{pane_current_path}|#{pane_current_command}|#{pane_active}"]

/-- tmux.rs `get_sessions`: the per-line closure. -/
def parse_session_line (line : String) : Session :=
  let parts := rust_split line '|'
  { id := parts.getD 0 ""
    name := parts.getD 1 ""
    count := parts.getD 2 "0"
    created := parts.getD 3 "" }

/-- tmux.rs `get_windows`: the per-line closure. -/
def parse_window_line (line : String) : Window :=
  let parts := rust_split line '|'
  { id := parts.getD 0 ""
    name := parts.getD 1 ""
    active := parts.getD 2 "0" == "1"
    layout := parts.getD 3 "" }

/-- tmux.rs `get_panes`: the per-line closure. -/
def parse_pane_line (line : String) : Pane :=
  let parts := rust_split line '|'
  { id := parts.getD 0 ""
    width := parts.getD 1 ""
    height := parts.getD 2 ""
    current_path := parts.getD 3 ""
    current_command := parts.getD 4 ""
    active := parts.getD 5 "0" == "1" }

/-- tmux.rs `get_sessions`; also returns the issued gateway calls. -/
def get_sessions (env : Env) : List Session × List (List String) :=
  let records :=
    match run_tmux env session_list_args with
    | none => []
    | some raw => ((rust_lines raw).filter (fun l => !(l == ""))).map parse_session_line
  (records, [session_list_args])

/-- tmux.rs `get_windows`; also returns the issued gateway calls. -/
def get_windows (env : Env) (session_id : String) : List Window × List (List String) :=
  let records :=
    match run_tmux env (window_list_args session_id) with
    | none => []
    | some raw => ((rust_lines raw).filter (fun l => !(l == ""))).map parse_window_line
  (records, [window_list_args session_id])

/-- tmux.rs `get_panes`; also returns the issued gateway calls. -/
def get_panes (env : Env) (window_id : String) : List Pane × List (List String) :=
  let records :=
    match run_tmux env (pane_list_args window_id) with
    | none => []
    | some raw => ((rust_lines raw).filter (fun l => !(l == ""))).map parse_pane_line
  (records, [pane_list_args window_id])

/-- tmux.rs `create_session` (fire-and-forget write: only the call matters). -/
def create_session (name : String) : List (List String) :=
  [["new-session", "-d", "-s", name]]

/-- tmux.rs `rename_session`. -/
def rename_session (old_name new_name : String) : List (List String) :=
  [["rename-session", "-t", old_name, new_name]]

/-- tmux.rs `kill_session`. -/
def kill_session (name : String) : List (List String) :=
  [["kill-session", "-t", name]]

/-- tmux.rs `create_window`. -/
def create_window (session_id name : String) : List (List String) :=
  [["new-window", "-t", session_id, "-n", name]]

/-- tmux.rs `rename_window`. -/
def rename_window (window_id new_name : String) : List (List String) :=
  [["rename-window", "-t", window_id, new_name]]

/-- tmux.rs `kill_window`. -/
def kill_window (window_id : String) : List (List String) :=
  [["kill-window", "-t", window_id]]

/-- tmux.rs `kill_pane`. -/
def kill_pane (pane_id : String) : List (List String) :=
  [["kill-pane", "-t", pane_id]]

/-- app.rs `next_item`. -/
def next_item (state : ListState) (len : Nat) : ListState :=
  if len = 0 then state
  else
    let i :=
      match state.selected with
      | some i => if i ≥ len - 1 then 0 else i + 1
      | none => 0
    { selected := some i }

/-- app.rs `prev_item`. -/
def prev_item (state : ListState) (len : Nat) : ListState :=
  if len = 0 then state
  else
    let i :=
      match state.selected with
      | some i => if i = 0 then len - 1 else i - 1
      | none => 0
    { selected := some i }

/-- app.rs `validate_list_selection` (the repair operation of the spec). -/
def validate_list_selection (state : ListState) (len : Nat) : ListState :=
  if len = 0 then { selected := none }
  else
    match state.selected with
    | some i => if i ≥ len then { selected := some (len - 1) } else state
    | none => { selected := some 0 }

/-- app.rs `get_selected_session`. -/
def get_selected_session (app : App) : Option Session :=
  app.session_list_state.selected.bind (fun i => app.sessions[i]?)

/-- app.rs `get_selected_window`. -/
def get_selected_window (app : App) : Option Window :=
  app.window_list_state.selected.bind (fun i => app.windows[i]?)

/-- app.rs `get_selected_pane`. -/
def get_selected_pane (app : App) : Option Pane :=
  app.pane_list_state.selected.bind (fun i => app.panes[i]?)

/-- app.rs `App::refresh_all`; returns the new app and the issued gateway
calls, in order. -/
def refresh_all (env : Env) (app : App) : App × List (List String) :=
  let sessionsFetch := get_sessions env
  let sessions := sessionsFetch.1
  let session_list_state := validate_list_selection app.session_list_state sessions.length
  let windowsFetch :=
    match session_list_state.selected with
    | some idx =>
      match sessions[idx]? with
      | some session => get_windows env session.id
      | none => ([], [])
    | none => ([], [])
  let windows := windowsFetch.1
  let window_list_state := validate_list_selection app.window_list_state windows.length
  let panesFetch :=
    match window_list_state.selected with
    | some idx =>
      match windows[idx]? with
      | some window => get_panes env window.id
      | none => ([], [])
    | none => ([], [])
  let panes := panesFetch.1
  let pane_list_state := validate_list_selection app.pane_list_state panes.length
  ({ app with
      sessions := sessions, windows := windows, panes := panes,
      session_list_state := session_list_state,
      window_list_state := window_list_state,
      pane_list_state := pane_list_state },
   sessionsFetch.2 ++ windowsFetch.2 ++ panesFetch.2)

/-- app.rs `App::refresh_panes_only`. -/
def refresh_panes_only (env : Env) (app : App) : App × List (List String) :=
  match app.window_list_state.selected with
  | some idx =>
    match app.windows[idx]? with
    | some win =>
      let fetch := get_panes env win.id
      ({ app with
          panes := fetch.1,
          pane_list_state := validate_list_selection app.pane_list_state fetch.1.length },
       fetch.2)
    | none => (app, [])
  | none => (app, [])

/-- app.rs `App::nav_down`. -/
def nav_down (env : Env) (app : App) : App × List (List String) :=
  match app.focus with
  | FocusArea.Sessions =>
    refresh_all env
      { app with session_list_state := next_item app.session_list_state app.sessions.length }
  | FocusArea.Windows =>
    refresh_panes_only env
      { app with window_list_state := next_item app.window_list_state app.windows.length }
  | FocusArea.Panes =>
    ({ app with pane_list_state := next_item app.pane_list_state app.panes.length }, [])

/-- app.rs `App::nav_up`. -/
def nav_up (env : Env) (app : App) : App × List (List String) :=
  match app.focus with
  | FocusArea.Sessions =>
    refresh_all env
      { app with session_list_state := prev_item app.session_list_state app.sessions.length }
  | FocusArea.Windows =>
    refresh_panes_only env
      { app with window_list_state := prev_item app.window_list_state app.windows.length }
  | FocusArea.Panes =>
    ({ app with pane_list_state := prev_item app.pane_list_state app.panes.length }, [])

/-- main.rs `run_loop`, the Normal-mode handler of the delete key
(sets a confirmation state only when something is selected at the focused
level). -/
def on_key_delete (app : App) : App :=
  match app.focus with
  | FocusArea.Sessions =>
    if (get_selected_session app).isSome then
      { app with state := AppState.ConfirmDeleteSession }
    else app
  | FocusArea.Windows =>
    if (get_selected_window app).isSome then
      { app with state := AppState.ConfirmDeleteWindow }
    else app
  | FocusArea.Panes =>
    if (get_selected_pane app).isSome then
      { app with state := AppState.ConfirmDeletePane }
    else app

/-- main.rs `run_loop`, the Normal-mode handler of the rename key. -/
def on_key_rename (app : App) : App :=
  match app.focus with
  | FocusArea.Sessions =>
    match (get_selected_session app).map Session.name with
    | some name => { app with state := AppState.InputRenameSession, input_buffer := name }
    | none => app
  | FocusArea.Windows =>
    match (get_selected_window app).map Window.name with
    | some name => { app with state := AppState.InputRenameWindow, input_buffer := name }
    | none => app
  | FocusArea.Panes => app

/-- main.rs `handle_input_submission`: returns the issued gateway writes
(the app itself is not modified by this function in the source). -/
def handle_input_submission (app : App) : List (List String) :=
  if app.input_buffer.trim.isEmpty then []
  else
    let val := app.input_buffer.trim
    match app.state with
    | AppState.InputNewSession => create_session val
    | AppState.InputRenameSession =>
      match (get_selected_session app).map Session.name with
      | some old => rename_session old val
      | none => []
    | AppState.InputNewWindow =>
      match (get_selected_session app).map Session.id with
      | some id => create_window id val
      | none => []
    | AppState.InputRenameWindow =>
      match (get_selected_window app).map Window.id with
      | some id => rename_window id val
      | none => []
    | _ => []

/-- main.rs `handle_confirmation`: returns the issued gateway writes. -/
def handle_confirmation (app : App) : List (List String) :=
  match app.state with
  | AppState.ConfirmDeleteSession =>
    match (get_selected_session app).map Session.name with
    | some name => kill_session name
    | none => []
  | AppState.ConfirmDeleteWindow =>
    match (get_selected_window app).map Window.id with
    | some id => kill_window id
    | none => []
  | AppState.ConfirmDeletePane =>
    match (get_selected_pane app).map Pane.id with
    | some id => kill_pane id
    | none => []
  | _ => []

/-- The Selection invariant of the spec: cursor is None iff the list is
empty, otherwise the cursor is in range. -/
def sel_invariant (s : ListState) (len : Nat) : Prop :=
  match s.selected with
  | none => len = 0
  | some c => c < len

instance (s : ListState) (len : Nat) : Decidable (sel_invariant s len) := by
  unfold sel_invariant
  match s.selected with
  | none => exact inferInstanceAs (Decidable (len = 0))
  | some c => exact inferInstanceAs (Decidable (c < len))


/-- A concrete app value used by closed witness statements. -/
def sample_app : App :=
  { sessions := [], windows := [], panes := [],
    session_list_state := { selected := none },
    window_list_state := { selected := none },
    pane_list_state := { selected := none },
    focus := FocusArea.Sessions, state := AppState.Normal,
    input_buffer := "", should_quit := false, target_attach := none }

/-- C1: `repair(newLen)` behaves exactly as specified, from every prior
cursor state: if newLen == 0 the cursor becomes None; else if the cursor
was None it becomes 0; else if the cursor c satisfied c >= newLen it
becomes newLen-1; else (c < newLen) the state is left unchanged. -/
theorem C1_repair_behaviour (s : ListState) (newLen : Nat) :
    (newLen = 0 → validate_list_selection s newLen = { selected := none }) ∧
    (newLen ≠ 0 → s.selected = none → validate_list_selection s newLen = { selected := some 0 }) ∧
    (∀ c, newLen ≠ 0 → s.selected = some c → newLen ≤ c →
      validate_list_selection s newLen = { selected := some (newLen - 1) }) ∧
    (∀ c, newLen ≠ 0 → s.selected = some c → c < newLen →
      validate_list_selection s newLen = s) := by
  refine ⟨fun h => ?_, fun h hn => ?_, fun c h hc hge => ?_, fun c h hc hlt => ?_⟩
  · simp [validate_list_selection, h]
  · simp [validate_list_selection, h, hn]
  · simp [validate_list_selection, h, hc, hge]
  · simp [validate_list_selection, h, hc, Nat.not_le.mpr hlt]

/-- Witness for C1 at concrete inputs (clamping case). -/
theorem C1_repair_behaviour_witness :
    (3 : Nat) ≠ 0 ∧ 3 ≤ 5 ∧
      validate_list_selection { selected := some 5 } 3 = { selected := some 2 } :=
  ⟨by decide, by decide,
    (C1_repair_behaviour { selected := some 5 } 3).2.2.1 5 (by decide) rfl (by decide)⟩

/-- C2: the Selection invariant (cursor None iff len = 0, else cursor in
range) is preserved by next() and prev() at an unchanged length, and is
established by repair(newLen) from any prior cursor state. -/
theorem C2_invariant_preservation (s : ListState) (len newLen : Nat) :
    (sel_invariant s len → sel_invariant (next_item s len) len) ∧
    (sel_invariant s len → sel_invariant (prev_item s len) len) ∧
    sel_invariant (validate_list_selection s newLen) newLen := by
  refine ⟨fun hinv => ?_, fun hinv => ?_, ?_⟩
  · by_cases h : len = 0
    · simpa [next_item, h] using hinv
    · cases hs : s.selected with
      | none => simp [next_item, sel_invariant, h, hs]; omega
      | some c =>
        have hc : c < len := by simpa [sel_invariant, hs] using hinv
        simp only [next_item, sel_invariant, if_neg h, hs]
        split <;> omega
  · by_cases h : len = 0
    · simpa [prev_item, h] using hinv
    · cases hs : s.selected with
      | none => simp [prev_item, sel_invariant, h, hs]; omega
      | some c =>
        have hc : c < len := by simpa [sel_invariant, hs] using hinv
        simp only [prev_item, sel_invariant, if_neg h, hs]
        split <;> omega
  · by_cases h : newLen = 0
    · simp [validate_list_selection, sel_invariant, h]
    · cases hs : s.selected with
      | none => simp [validate_list_selection, sel_invariant, h, hs]; omega
      | some c =>
        simp only [validate_list_selection, sel_invariant, if_neg h, hs]
        split
        · rename_i heq
          split at heq
          · simp at heq
          · simp_all
        · rename_i c2 heq
          split at heq
          · simp at heq
            omega
          · rw [hs] at heq
            simp at heq
            rename_i hlt
            omega

/-- Witness for C2 at concrete inputs. -/
theorem C2_invariant_preservation_witness :
    sel_invariant { selected := some 1 } 2 ∧
      sel_invariant (next_item { selected := some 1 } 2) 2 :=
  ⟨by decide, (C2_invariant_preservation { selected := some 1 } 2 0).1 (by decide)⟩

/-- C5: next() and prev(): no-ops on an empty list; next moves to
(cursor+1) mod len (0 from the unset state); prev moves to c-1 from c > 0,
wraps from 0 to len-1. -/
theorem C5_next_prev_semantics (s : ListState) (len c : Nat) :
    (next_item s 0 = s) ∧
    (prev_item s 0 = s) ∧
    (0 < len → next_item { selected := none } len = { selected := some 0 }) ∧
    (0 < len → c < len →
      next_item { selected := some c } len = { selected := some ((c + 1) % len) }) ∧
    (0 < len → 0 < c →
      prev_item { selected := some c } len = { selected := some (c - 1) }) ∧
    (0 < len → prev_item { selected := some 0 } len = { selected := some (len - 1) }) := by
  refine ⟨by simp [next_item], by simp [prev_item], fun hl => ?_, fun hl hc => ?_,
    fun hl hc => ?_, fun hl => ?_⟩
  · simp [next_item, Nat.pos_iff_ne_zero.mp hl]
  · simp only [next_item, if_neg (Nat.pos_iff_ne_zero.mp hl)]
    by_cases h1 : c ≥ len - 1
    · have hce : c = len - 1 := by omega
      subst hce
      rw [if_pos h1, show len - 1 + 1 = len by omega, Nat.mod_self]
    · rw [if_neg h1, Nat.mod_eq_of_lt (by omega)]
  · simp [prev_item, Nat.pos_iff_ne_zero.mp hl, Nat.pos_iff_ne_zero.mp hc]
  · simp [prev_item, Nat.pos_iff_ne_zero.mp hl]

/-- Witness for C5 at concrete inputs (wrap-around case of next). -/
theorem C5_next_prev_semantics_witness :
    (0 : Nat) < 3 ∧ 2 < 3 ∧
      next_item { selected := some 2 } 3 = { selected := some ((2 + 1) % 3) } :=
  ⟨by decide, by decide,
    (C5_next_prev_semantics { selected := some 2 } 3 2).2.2.2.1 (by decide) (by decide)⟩

/-- C10: on a non-empty list with the cursor unset, prev() selects index 0
(the same index next() selects from the unset state), not len-1. -/
theorem C10_prev_unset (len : Nat) (h : 0 < len) :
    prev_item { selected := none } len = { selected := some 0 } ∧
    prev_item { selected := none } len = next_item { selected := none } len ∧
    (1 < len → prev_item { selected := none } len ≠ { selected := some (len - 1) }) := by
  have h0 : len ≠ 0 := Nat.pos_iff_ne_zero.mp h
  refine ⟨by simp [prev_item, h0], by simp [prev_item, next_item, h0], fun h1 heq => ?_⟩
  simp [prev_item, h0] at heq
  omega

/-- Witness for C10 at a concrete length. -/
theorem C10_prev_unset_witness :
    (0 : Nat) < 2 ∧ (1 : Nat) < 2 ∧
      prev_item { selected := none } 2 = { selected := some 0 } ∧
      prev_item { selected := none } 2 ≠ { selected := some 1 } :=
  ⟨by decide, by decide, (C10_prev_unset 2 (by decide)).1,
    (C10_prev_unset 2 (by decide)).2.2 (by decide)⟩

/-- C9: when no window is selected, or the selected window index is out of
range of the windows list, refresh_panes_only leaves the whole app (panes
list and Panes selection included) unchanged and issues no gateway call. -/
theorem C9_refresh_panes_only_noop (env : Env) (app : App) :
    (app.window_list_state.selected = none → refresh_panes_only env app = (app, [])) ∧
    (∀ idx, app.window_list_state.selected = some idx → app.windows[idx]? = none →
      refresh_panes_only env app = (app, [])) := by
  constructor
  · intro h
    simp [refresh_panes_only, h]
  · intro idx h hw
    simp [refresh_panes_only, h, hw]

/-- Witness for C9 at a concrete app with no window selected. -/
theorem C9_refresh_panes_only_noop_witness :
    refresh_panes_only (fun _ => none) sample_app = (sample_app, []) :=
  (C9_refresh_panes_only_noop (fun _ => none) sample_app).1 rfl

/-- C7: parsing is total; a line with fewer delimiter-separated fields than
the record expects yields a record whose missing trailing fields are the
empty string (or "0" for the session window-count field, false for the
active flags); every non-empty output line yields exactly one record and
none is dropped. -/
theorem C7_parse_degradation (line : String) (env : Env) (raw sid wid : String) :
    ((rust_split line '|').length ≤ 1 → (parse_session_line line).name = "") ∧
    ((rust_split line '|').length ≤ 2 →
      (parse_session_line line).count = "0" ∧ (parse_session_line line).created = "") ∧
    ((rust_split line '|').length ≤ 3 → (parse_session_line line).created = "") ∧
    ((rust_split line '|').length ≤ 1 → (parse_window_line line).name = "") ∧
    ((rust_split line '|').length ≤ 2 → (parse_window_line line).active = false) ∧
    ((rust_split line '|').length ≤ 3 → (parse_window_line line).layout = "") ∧
    ((rust_split line '|').length ≤ 1 → (parse_pane_line line).width = "") ∧
    ((rust_split line '|').length ≤ 2 → (parse_pane_line line).height = "") ∧
    ((rust_split line '|').length ≤ 3 → (parse_pane_line line).current_path = "") ∧
    ((rust_split line '|').length ≤ 4 → (parse_pane_line line).current_command = "") ∧
    ((rust_split line '|').length ≤ 5 → (parse_pane_line line).active = false) ∧
    (run_tmux env session_list_args = some raw →
      (get_sessions env).1 = ((rust_lines raw).filter (fun l => !(l == ""))).map parse_session_line ∧
      (get_sessions env).1.length = ((rust_lines raw).filter (fun l => !(l == ""))).length) ∧
    (run_tmux env (window_list_args sid) = some raw →
      (get_windows env sid).1 =
        ((rust_lines raw).filter (fun l => !(l == ""))).map parse_window_line ∧
      (get_windows env sid).1.length = ((rust_lines raw).filter (fun l => !(l == ""))).length) ∧
    (run_tmux env (pane_list_args wid) = some raw →
      (get_panes env wid).1 =
        ((rust_lines raw).filter (fun l => !(l == ""))).map parse_pane_line ∧
      (get_panes env wid).1.length = ((rust_lines raw).filter (fun l => !(l == ""))).length) := by
  refine ⟨fun h => ?_, fun h => ⟨?_, ?_⟩, fun h => ?_, fun h => ?_, fun h => ?_,
    fun h => ?_, fun h => ?_, fun h => ?_, fun h => ?_, fun h => ?_, fun h => ?_,
    fun h => ⟨?_, ?_⟩, fun h => ⟨?_, ?_⟩, fun h => ⟨?_, ?_⟩⟩
  · simp [parse_session_line,
      List.getElem?_eq_none (show (rust_split line '|').length ≤ 1 from by omega)]
  · simp [parse_session_line,
      List.getElem?_eq_none (show (rust_split line '|').length ≤ 2 from by omega)]
  · simp [parse_session_line,
      List.getElem?_eq_none (show (rust_split line '|').length ≤ 3 from by omega)]
  · simp [parse_session_line,
      List.getElem?_eq_none (show (rust_split line '|').length ≤ 3 from by omega)]
  · simp [parse_window_line,
      List.getElem?_eq_none (show (rust_split line '|').length ≤ 1 from by omega)]
  · simp [parse_window_line,
      List.getElem?_eq_none (show (rust_split line '|').length ≤ 2 from by omega)]
  · simp [parse_window_line,
      List.getElem?_eq_none (show (rust_split line '|').length ≤ 3 from by omega)]
  · simp [parse_pane_line,
      List.getElem?_eq_none (show (rust_split line '|').length ≤ 1 from by omega)]
  · simp [parse_pane_line,
      List.getElem?_eq_none (show (rust_split line '|').length ≤ 2 from by omega)]
  · simp [parse_pane_line,
      List.getElem?_eq_none (show (rust_split line '|').length ≤ 3 from by omega)]
  · simp [parse_pane_line,
      List.getElem?_eq_none (show (rust_split line '|').length ≤ 4 from by omega)]
  · simp [parse_pane_line,
      List.getElem?_eq_none (show (rust_split line '|').length ≤ 5 from by omega)]
  · simp [get_sessions, h]
  · simp [get_sessions, h]
  · simp [get_windows, h]
  · simp [get_windows, h]
  · simp [get_panes, h]
  · simp [get_panes, h]

/-- A concrete gateway environment used by the C7 witness: the session
listing returns two non-empty lines, the second with missing fields, and
one window listing has a one-field pane line. -/
def c7_env : Env :=
  fun args =>
    if args = session_list_args then some "$0|alpha|2|today\nmalformed"
    else if args = pane_list_args "%0" then some "%0|80"
    else none

/-- Witness for C7 at concrete inputs: short session and pane lines get
the defaults, a malformed session line still becomes a record, and a pane
listing keeps one record per non-empty line. -/
theorem C7_parse_degradation_witness :
    (rust_split "a|b" '|').length ≤ 2 ∧
      (parse_session_line "a|b").count = "0" ∧
      (parse_pane_line "%0").width = "" ∧
      (get_sessions c7_env).1 =
        ((rust_lines "$0|alpha|2|today\nmalformed").filter (fun l => !(l == ""))).map parse_session_line ∧
      (get_panes c7_env "%0").1.length =
        ((rust_lines "%0|80").filter (fun l => !(l == ""))).length :=
  ⟨by decide,
    ((C7_parse_degradation "a|b" c7_env "$0|alpha|2|today\nmalformed" "s" "w").2.1 (by decide)).1,
    (C7_parse_degradation "%0" c7_env "x" "s" "w").2.2.2.2.2.2.1 (by decide),
    ((C7_parse_degradation "a|b" c7_env "$0|alpha|2|today\nmalformed" "s" "w").2.2.2.2.2.2.2.2.2.2.2.1
      (by decide)).1,
    ((C7_parse_degradation "a|b" c7_env "%0|80" "s" "%0").2.2.2.2.2.2.2.2.2.2.2.2.2
      (by decide)).2⟩

/-- C8: actions whose precondition fails issue no gateway write: delete at
any focus level with nothing selected there leaves the mode unchanged at
the dispatcher and produces no write in the confirmation handler; rename
with nothing selected produces no write; creating a window with no session
selected produces no write. -/
theorem C8_precondition_no_write (app : App) :
    (app.focus = FocusArea.Sessions → get_selected_session app = none → on_key_delete app = app) ∧
    (app.focus = FocusArea.Windows → get_selected_window app = none → on_key_delete app = app) ∧
    (app.focus = FocusArea.Panes → get_selected_pane app = none → on_key_delete app = app) ∧
    (app.state = AppState.ConfirmDeleteSession → get_selected_session app = none →
      handle_confirmation app = []) ∧
    (app.state = AppState.ConfirmDeleteWindow → get_selected_window app = none →
      handle_confirmation app = []) ∧
    (app.state = AppState.ConfirmDeletePane → get_selected_pane app = none →
      handle_confirmation app = []) ∧
    (app.focus = FocusArea.Sessions → get_selected_session app = none → on_key_rename app = app) ∧
    (app.focus = FocusArea.Windows → get_selected_window app = none → on_key_rename app = app) ∧
    (app.state = AppState.InputRenameSession → get_selected_session app = none →
      handle_input_submission app = []) ∧
    (app.state = AppState.InputRenameWindow → get_selected_window app = none →
      handle_input_submission app = []) ∧
    (app.state = AppState.InputNewWindow → get_selected_session app = none →
      handle_input_submission app = []) := by
  refine ⟨fun hf hn => ?_, fun hf hn => ?_, fun hf hn => ?_, fun hs hn => ?_, fun hs hn => ?_,
    fun hs hn => ?_, fun hf hn => ?_, fun hf hn => ?_, fun hs hn => ?_, fun hs hn => ?_,
    fun hs hn => ?_⟩
  · simp [on_key_delete, hf, hn]
  · simp [on_key_delete, hf, hn]
  · simp [on_key_delete, hf, hn]
  · simp [handle_confirmation, hs, hn]
  · simp [handle_confirmation, hs, hn]
  · simp [handle_confirmation, hs, hn]
  · simp [on_key_rename, hf, hn]
  · simp [on_key_rename, hf, hn]
  · simp [handle_input_submission, hs, hn]
  · simp [handle_input_submission, hs, hn]
  · simp [handle_input_submission, hs, hn]

/-- Witness for C8 at a concrete app: delete pressed in the Sessions
column with no session selected changes nothing, and a pending
delete-session confirmation with no selection issues no write. -/
theorem C8_precondition_no_write_witness :
    on_key_delete sample_app = sample_app ∧
      handle_confirmation { sample_app with state := AppState.ConfirmDeleteSession } = [] :=
  ⟨(C8_precondition_no_write sample_app).1 rfl rfl,
    (C8_precondition_no_write
      { sample_app with state := AppState.ConfirmDeleteSession }).2.2.2.1 rfl rfl⟩

/-- Concrete records used by closed witness statements. -/
def sample_session : Session := { id := "$1", name := "alpha", count := "1", created := "now" }

def sample_window : Window := { id := "@1", name := "main", active := true, layout := "tiled" }

def sample_pane : Pane :=
  { id := "%1", width := "80", height := "24", current_path := "/", current_command := "sh",
    active := true }

/-- An app holding stale window/pane data, used to exercise the cascade
when the session list comes back empty. -/
def stale_app : App :=
  { sample_app with
      sessions := [sample_session], windows := [sample_window],
      panes := [sample_pane, sample_pane],
      session_list_state := { selected := some 0 },
      window_list_state := { selected := some 0 },
      pane_list_state := { selected := some 1 } }

/-- C3: refresh_all performs the cascade: new sessions list, repair of the
Sessions selection; windows re-listed for the selected session, or cleared
when none is selected; repair of the Windows selection; panes re-listed for
the selected window, or cleared; repair of the Panes selection.  When the
session list comes back empty, all three lists are empty and all three
selections are None regardless of prior contents. -/
theorem C3_refresh_all_cascade (env : Env) (app : App) :
    (refresh_all env app).1.sessions = (get_sessions env).1 ∧
    (refresh_all env app).1.session_list_state =
      validate_list_selection app.session_list_state (get_sessions env).1.length ∧
    (∀ idx s, (refresh_all env app).1.session_list_state.selected = some idx →
      (get_sessions env).1[idx]? = some s →
      (refresh_all env app).1.windows = (get_windows env s.id).1) ∧
    ((refresh_all env app).1.session_list_state.selected = none →
      (refresh_all env app).1.windows = []) ∧
    (refresh_all env app).1.window_list_state =
      validate_list_selection app.window_list_state (refresh_all env app).1.windows.length ∧
    (∀ idx w, (refresh_all env app).1.window_list_state.selected = some idx →
      (refresh_all env app).1.windows[idx]? = some w →
      (refresh_all env app).1.panes = (get_panes env w.id).1) ∧
    ((refresh_all env app).1.window_list_state.selected = none →
      (refresh_all env app).1.panes = []) ∧
    (refresh_all env app).1.pane_list_state =
      validate_list_selection app.pane_list_state (refresh_all env app).1.panes.length ∧
    ((get_sessions env).1 = [] →
      (refresh_all env app).1.sessions = [] ∧
      (refresh_all env app).1.windows = [] ∧
      (refresh_all env app).1.panes = [] ∧
      (refresh_all env app).1.session_list_state.selected = none ∧
      (refresh_all env app).1.window_list_state.selected = none ∧
      (refresh_all env app).1.pane_list_state.selected = none) := by
  refine ⟨rfl, rfl, ?_, ?_, rfl, ?_, ?_, rfl, ?_⟩
  · intro idx s h1 h2
    have h1x : (validate_list_selection app.session_list_state
        (get_sessions env).1.length).selected = some idx := h1
    simp only [refresh_all, h1x, h2]
  · intro h1
    have h1x : (validate_list_selection app.session_list_state
        (get_sessions env).1.length).selected = none := h1
    simp only [refresh_all, h1x]
  · intro idx w h1 h2
    have h1x := h1
    have h2x := h2
    simp only [refresh_all] at h1x h2x
    simp only [refresh_all, h1x, h2x]
  · intro h1
    have h1x := h1
    simp only [refresh_all] at h1x
    simp only [refresh_all, h1x]
  · intro h
    have h0 : (get_sessions env).1.length = 0 := by rw [h]; rfl
    refine ⟨?_, ?_, ?_, ?_, ?_, ?_⟩ <;>
      simp [refresh_all, h, h0, validate_list_selection]

/-- Witness for C3: with a failing gateway (empty session list) and stale
window/pane data, everything comes back empty with None selections. -/
theorem C3_refresh_all_cascade_witness :
    (get_sessions (fun _ => none)).1 = [] ∧
      (refresh_all (fun _ => none) stale_app).1.windows = [] ∧
      (refresh_all (fun _ => none) stale_app).1.panes = [] ∧
      (refresh_all (fun _ => none) stale_app).1.window_list_state.selected = none ∧
      (refresh_all (fun _ => none) stale_app).1.pane_list_state.selected = none :=
  have hc := (C3_refresh_all_cascade (fun _ => none) stale_app).2.2.2.2.2.2.2.2 rfl
  ⟨rfl, hc.2.1, hc.2.2.1, hc.2.2.2.2.1, hc.2.2.2.2.2⟩

/-- C4: a gateway failure on any read produces an empty record list, and
the enclosing refresh then repairs the corresponding selection to None.
(The read operations and refresh_all are total functions of the
environment by construction: no branch raises.) -/
theorem C4_gateway_failure_degrades (env : Env) (app : App) (sid wid : String) :
    (env session_list_args = none →
      (get_sessions env).1 = [] ∧
      (refresh_all env app).1.sessions = [] ∧
      (refresh_all env app).1.session_list_state.selected = none ∧
      (refresh_all env app).1.windows = [] ∧
      (refresh_all env app).1.window_list_state.selected = none ∧
      (refresh_all env app).1.panes = [] ∧
      (refresh_all env app).1.pane_list_state.selected = none) ∧
    (env (window_list_args sid) = none → (get_windows env sid).1 = []) ∧
    (env (pane_list_args wid) = none → (get_panes env wid).1 = []) ∧
    (∀ idx s, (refresh_all env app).1.session_list_state.selected = some idx →
      (get_sessions env).1[idx]? = some s → env (window_list_args s.id) = none →
      (refresh_all env app).1.windows = [] ∧
      (refresh_all env app).1.window_list_state.selected = none) ∧
    (∀ idx w, (refresh_all env app).1.window_list_state.selected = some idx →
      (refresh_all env app).1.windows[idx]? = some w → env (pane_list_args w.id) = none →
      (refresh_all env app).1.panes = [] ∧
      (refresh_all env app).1.pane_list_state.selected = none) := by
  refine ⟨fun h => ?_, fun h => ?_, fun h => ?_, fun idx s h1 h2 henv => ?_,
    fun idx w h1 h2 henv => ?_⟩
  · have hs : (get_sessions env).1 = [] := by simp [get_sessions, run_tmux, h]
    have h0 : (get_sessions env).1.length = 0 := by rw [hs]; rfl
    refine ⟨hs, ?_, ?_, ?_, ?_, ?_, ?_⟩ <;>
      simp [refresh_all, hs, h0, validate_list_selection]
  · simp [get_windows, run_tmux, h]
  · simp [get_panes, run_tmux, h]
  · have h1x : (validate_list_selection app.session_list_state
        (get_sessions env).1.length).selected = some idx := h1
    have hwin : (refresh_all env app).1.windows = [] := by
      simp only [refresh_all, h1x, h2]
      simp [get_windows, run_tmux, henv]
    refine ⟨hwin, ?_⟩
    have e : (refresh_all env app).1.window_list_state =
        validate_list_selection app.window_list_state
          (refresh_all env app).1.windows.length := rfl
    rw [e, hwin]
    simp [validate_list_selection]
  · have h1x := h1
    have h2x := h2
    simp only [refresh_all] at h1x h2x
    have hpan : (refresh_all env app).1.panes = [] := by
      simp only [refresh_all, h1x, h2x]
      simp [get_panes, run_tmux, henv]
    refine ⟨hpan, ?_⟩
    have e : (refresh_all env app).1.pane_list_state =
        validate_list_selection app.pane_list_state
          (refresh_all env app).1.panes.length := rfl
    rw [e, hpan]
    simp [validate_list_selection]

/-- Witness for C4: an always-failing gateway empties the session list and
clears the Sessions selection after a refresh from stale data. -/
theorem C4_gateway_failure_degrades_witness :
    ((fun _ => none : Env) session_list_args = none) ∧
      (refresh_all (fun _ => none) stale_app).1.sessions = [] ∧
      (refresh_all (fun _ => none) stale_app).1.session_list_state.selected = none :=
  have hc := (C4_gateway_failure_degrades (fun _ => none) stale_app "$1" "@1").1 rfl
  ⟨rfl, hc.2.1, hc.2.2.1⟩

/-- refresh_panes_only never touches the sessions list, the Sessions
selection, the windows list or the Windows selection. -/
theorem refresh_panes_only_preserves (env : Env) (a : App) :
    (refresh_panes_only env a).1.sessions = a.sessions ∧
    (refresh_panes_only env a).1.session_list_state = a.session_list_state ∧
    (refresh_panes_only env a).1.windows = a.windows ∧
    (refresh_panes_only env a).1.window_list_state = a.window_list_state := by
  cases h : a.window_list_state.selected with
  | none => simp [refresh_panes_only, h]
  | some idx =>
    cases hw : a.windows[idx]? with
    | none => simp [refresh_panes_only, h, hw]
    | some w => simp [refresh_panes_only, h, hw]

/-- When a window is selected and in range, refresh_panes_only re-fetches
the panes of that window, repairs the Panes selection, and issues exactly
that one gateway call. -/
theorem refresh_panes_only_fetch (env : Env) (a : App) (idx : Nat) (w : Window)
    (h : a.window_list_state.selected = some idx) (hw : a.windows[idx]? = some w) :
    (refresh_panes_only env a).1.panes = (get_panes env w.id).1 ∧
    (refresh_panes_only env a).1.pane_list_state =
      validate_list_selection a.pane_list_state (get_panes env w.id).1.length ∧
    (refresh_panes_only env a).2 = [pane_list_args w.id] := by
  simp [refresh_panes_only, h, hw, get_panes]

/-- C6: with focus on Windows, nav_down/nav_up move the window cursor and
then re-fetch and repair only the panes of the newly selected window,
leaving the sessions list, the Sessions selection and the windows list
unchanged, issuing exactly the one panes fetch; with focus on Panes they
only move the pane cursor and issue no gateway call at all. -/
theorem C6_navigation_effects (env : Env) (app : App) :
    (app.focus = FocusArea.Windows →
      (nav_down env app).1.sessions = app.sessions ∧
      (nav_down env app).1.session_list_state = app.session_list_state ∧
      (nav_down env app).1.windows = app.windows ∧
      (nav_down env app).1.window_list_state =
        next_item app.window_list_state app.windows.length ∧
      (nav_up env app).1.sessions = app.sessions ∧
      (nav_up env app).1.session_list_state = app.session_list_state ∧
      (nav_up env app).1.windows = app.windows ∧
      (nav_up env app).1.window_list_state =
        prev_item app.window_list_state app.windows.length ∧
      (∀ idx w, (next_item app.window_list_state app.windows.length).selected = some idx →
        app.windows[idx]? = some w →
        (nav_down env app).1.panes = (get_panes env w.id).1 ∧
        (nav_down env app).1.pane_list_state =
          validate_list_selection app.pane_list_state (get_panes env w.id).1.length ∧
        (nav_down env app).2 = [pane_list_args w.id]) ∧
      (∀ idx w, (prev_item app.window_list_state app.windows.length).selected = some idx →
        app.windows[idx]? = some w →
        (nav_up env app).1.panes = (get_panes env w.id).1 ∧
        (nav_up env app).1.pane_list_state =
          validate_list_selection app.pane_list_state (get_panes env w.id).1.length ∧
        (nav_up env app).2 = [pane_list_args w.id])) ∧
    (app.focus = FocusArea.Panes →
      nav_down env app =
        ({ app with pane_list_state := next_item app.pane_list_state app.panes.length }, []) ∧
      nav_up env app =
        ({ app with pane_list_state := prev_item app.pane_list_state app.panes.length }, [])) := by
  constructor
  · intro hf
    have hdown : nav_down env app = refresh_panes_only env
        { app with window_list_state := next_item app.window_list_state app.windows.length } := by
      simp [nav_down, hf]
    have hup : nav_up env app = refresh_panes_only env
        { app with window_list_state := prev_item app.window_list_state app.windows.length } := by
      simp [nav_up, hf]
    obtain ⟨d1, d2, d3, d4⟩ := refresh_panes_only_preserves env
      { app with window_list_state := next_item app.window_list_state app.windows.length }
    obtain ⟨u1, u2, u3, u4⟩ := refresh_panes_only_preserves env
      { app with window_list_state := prev_item app.window_list_state app.windows.length }
    refine ⟨by rw [hdown]; exact d1, by rw [hdown]; exact d2, by rw [hdown]; exact d3,
      by rw [hdown]; exact d4, by rw [hup]; exact u1, by rw [hup]; exact u2,
      by rw [hup]; exact u3, by rw [hup]; exact u4, ?_, ?_⟩
    · intro idx w h1 h2
      obtain ⟨f1, f2, f3⟩ := refresh_panes_only_fetch env
        { app with window_list_state := next_item app.window_list_state app.windows.length }
        idx w h1 h2
      exact ⟨by rw [hdown]; exact f1, by rw [hdown]; exact f2, by rw [hdown]; exact f3⟩
    · intro idx w h1 h2
      obtain ⟨f1, f2, f3⟩ := refresh_panes_only_fetch env
        { app with window_list_state := prev_item app.window_list_state app.windows.length }
        idx w h1 h2
      exact ⟨by rw [hup]; exact f1, by rw [hup]; exact f2, by rw [hup]; exact f3⟩
  · intro hf
    constructor
    · simp [nav_down, hf]
    · simp [nav_up, hf]

/-- An app with stale data and focus on the Windows column, used by the C6
witness. -/
def win_app : App := { stale_app with focus := FocusArea.Windows }

/-- Witness for C6: window-level navigation with a failing gateway keeps
the windows list and issues exactly the panes fetch of the still-selected
window. -/
theorem C6_navigation_effects_witness :
    win_app.focus = FocusArea.Windows ∧
      (nav_down (fun _ => none) win_app).1.windows = win_app.windows ∧
      (nav_down (fun _ => none) win_app).2 = [pane_list_args sample_window.id] :=
  have hc := (C6_navigation_effects (fun _ => none) win_app).1 rfl
  ⟨rfl, hc.2.2.1, (hc.2.2.2.2.2.2.2.2.1 0 sample_window rfl rfl).2.2⟩

end Tmuxui
